import Mathlib

set_option autoImplicit false
set_option maxHeartbeats 1000000

/-!
Shallow embedding of the sidetone State Synchronizer of hyperx-pilot
(the `<script setup>` block of the settings view).

The reactive refs of the component become fields of `SyncState`; the two
module-level mutable flags (`suppressSidetoneWatcher`, `sidetoneRefreshPending`)
are fields as well.  The independent UI state (DTS switch, locale selection)
never interacts with the sidetone logic and is omitted.

Asynchrony is made explicit: each `await invoke(...)` of `set_sidetone` /
`get_sidetone_state` is split into the synchronous prefix of its handler
(which records the outstanding call in `Config.inflight`) and a completion
handler run when the backend result arrives (events `setResult` / `getResult`).
The backend itself (the Rust side of the Tauri commands) is external: its
results are arbitrary values carried by the completion events.

Vue semantics made explicit in the model:
* writing a ref with a value equal to the current one triggers no watcher
  (Vue compares with Object.is and does not fire effects on unchanged values);
* `watch` callbacks are pre-flush: they run after the synchronous block that
  performed the mutation.  For every mutation site of `sidetuneEnabled` the
  flush-time environment of the watcher equals the mutation-time environment,
  so the watcher is inlined right after the mutation (`writeSidetune`).  For
  `selectedDeviceId` the one place where the timing is observable is
  `loadDevices`, whose `finally` clears `devicesLoading` before the watcher
  flushes; `loadDevicesFinish` therefore runs the watcher after that clear.
* user events are gated by the template: the sidetone `Switch` is disabled
  unless `canToggleSidetone`, and the device `Select` is disabled while
  `devicesLoading` or when the list is empty and only offers the listed
  device ids.
-/

structure DeviceOption where
  id : String
  label : String
deriving DecidableEq, Repr

/-- The reactive state of the component (the refs of the script block plus the
two module-level flags). -/
structure SyncState where
  sidetuneEnabled : Bool
  devices : List DeviceOption
  devicesLoading : Bool
  deviceError : Option String
  selectedDeviceId : Option String
  sidetoneBusy : Bool
  sidetoneError : Option String
  suppressSidetoneWatcher : Bool
  sidetoneRefreshPending : Bool
deriving DecidableEq, Repr

/-- An outstanding transport call to the backend.  A `set` call remembers the
`fallbackState` its continuation closed over. -/
inductive Call where
  | set (deviceId : String) (enabled : Bool) (fallbackState : Bool)
  | get (deviceId : String)
deriving DecidableEq, Repr

/-- A configuration: the reactive state together with the outstanding sidetone
transport calls.  Issuing appends to `inflight`; the single-flight discipline
is something to be proved, not baked in. -/
structure Config where
  state : SyncState
  inflight : List Call
deriving DecidableEq, Repr

/-- `canToggleSidetone` computed of the component:
`!!selectedDeviceId.value && !devicesLoading.value && !sidetoneBusy.value`. -/
def canToggleSidetone (c : Config) : Bool :=
  c.state.selectedDeviceId.isSome && !c.state.devicesLoading && !c.state.sidetoneBusy

/-- Synchronous prefix of `pushSidetoneState(enabled, fallbackState)`: the
early return, then `sidetoneBusy = true`, `sidetoneError = null` and the
`set_sidetone` invoke, recorded as an outstanding call. -/
def pushSidetoneStateStart (enabled fallbackState : Bool) (c : Config) : Config :=
  match c.state.selectedDeviceId with
  | none => c
  | some deviceId =>
    if c.state.devicesLoading then c
    else
      { state := { c.state with sidetoneBusy := true, sidetoneError := none },
        inflight := c.inflight ++ [Call.set deviceId enabled fallbackState] }

/-- The `watch(sidetuneEnabled, ...)` callback, with `enabled` the new and
`previous` the old value (`previous ?? !enabled` always resolves to
`previous` here, since the ref is initialised to a boolean). -/
def sidetuneWatcher (enabled previous : Bool) (c : Config) : Config :=
  if c.state.suppressSidetoneWatcher then
    { c with state.suppressSidetoneWatcher := false }
  else
    match c.state.selectedDeviceId with
    | none => c
    | some _ =>
      if c.state.devicesLoading then c
      else pushSidetoneStateStart enabled previous c

/-- Writing `sidetuneEnabled.value = value`: a no-op when the value is
unchanged (Vue fires no watcher then), otherwise the mutation followed by its
watcher invocation. -/
def writeSidetune (value : Bool) (c : Config) : Config :=
  if c.state.sidetuneEnabled = value then c
  else
    sidetuneWatcher value c.state.sidetuneEnabled
      { c with state.sidetuneEnabled := value }

/-- Synchronous prefix of `refreshSidetoneState()`: early return, the
coalescing busy check, then `sidetoneBusy = true`, `sidetoneError = null` and
the `get_sidetone_state` invoke, recorded as an outstanding call. -/
def refreshSidetoneState (c : Config) : Config :=
  match c.state.selectedDeviceId with
  | none => c
  | some deviceId =>
    if c.state.devicesLoading then c
    else if c.state.sidetoneBusy then
      { c with state.sidetoneRefreshPending := true }
    else
      { state := { c.state with sidetoneBusy := true, sidetoneError := none },
        inflight := c.inflight ++ [Call.get deviceId] }

/-- Continuation of `pushSidetoneState` once the `set_sidetone` call settled:
the catch block (error description, suppression flag, rollback write) and the
finally block (clear busy, service a pending trailing refresh). -/
def pushSidetoneStateFinish (fallbackState : Bool) (r : Except String Unit)
    (c : Config) : Config :=
  let c1 :=
    match r with
    | Except.ok _ => c
    | Except.error e =>
      writeSidetune fallbackState
        { c with state.sidetoneError := some e, state.suppressSidetoneWatcher := true }
  let c2 := { c1 with state.sidetoneBusy := false }
  if c2.state.sidetoneRefreshPending then
    refreshSidetoneState { c2 with state.sidetoneRefreshPending := false }
  else c2

/-- Continuation of `refreshSidetoneState` once the `get_sidetone_state` call
settled: only a boolean result mutates the toggle (behind the suppression
flag); the catch block records the error; the finally block clears busy and
services a pending trailing refresh.  Note the handler never compares the
device the call was issued for with the current selection. -/
def refreshSidetoneStateFinish (r : Except String (Option Bool))
    (c : Config) : Config :=
  let c1 :=
    match r with
    | Except.ok (some b) =>
      writeSidetune b { c with state.suppressSidetoneWatcher := true }
    | Except.ok none => c
    | Except.error e => { c with state.sidetoneError := some e }
  let c2 := { c1 with state.sidetoneBusy := false }
  if c2.state.sidetoneRefreshPending then
    refreshSidetoneState { c2 with state.sidetoneRefreshPending := false }
  else c2

/-- Body of the `watch(selectedDeviceId, ...)` callback (after its
`deviceId === previous` guard). -/
def selectedDeviceWatcherBody (deviceId : Option String) (c : Config) : Config :=
  match deviceId with
  | none =>
    writeSidetune false
      { c with state.sidetoneError := none, state.suppressSidetoneWatcher := true }
  | some _ =>
    if c.state.devicesLoading then c
    else refreshSidetoneState c

/-- Synchronous prefix of `loadDevices()`. -/
def loadDevicesStart (c : Config) : Config :=
  { c with state.devicesLoading := true, state.deviceError := none }

/-- Continuation of `loadDevices` once `list_hyperx_devices` settled: store the
list and auto-select its head (or clear the selection), record the error on
failure, clear the loading flag, and then — pre-flush, i.e. after the finally
block — run the `selectedDeviceId` watcher when the selection changed. -/
def loadDevicesFinish (r : Except String (List DeviceOption)) (c : Config) : Config :=
  match r with
  | Except.ok result =>
    let sel : Option String :=
      match result with
      | [] => none
      | d :: _ => some d.id
    let previous := c.state.selectedDeviceId
    let c2 := { c with state.devices := result, state.selectedDeviceId := sel,
                       state.devicesLoading := false }
    if sel = previous then c2 else selectedDeviceWatcherBody sel c2
  | Except.error e =>
    let previous := c.state.selectedDeviceId
    let c2 := { c with state.deviceError := some e, state.selectedDeviceId := none,
                       state.devicesLoading := false }
    if (none : Option String) = previous then c2
    else selectedDeviceWatcherBody none c2

/-- External events driving the component: the two user gestures the template
allows, and the settling of each kind of backend call. -/
inductive Event where
  | userToggle
  | selectDevice (deviceId : String)
  | listResult (r : Except String (List DeviceOption))
  | setResult (r : Except String Unit)
  | getResult (r : Except String (Option Bool))

/-- One step of the component.  `none` means the event cannot occur in this
configuration (the control is disabled, or no matching call is outstanding). -/
def step (c : Config) : Event → Option Config
  | Event.userToggle =>
    if canToggleSidetone c then
      some (writeSidetune (!c.state.sidetuneEnabled) c)
    else none
  | Event.selectDevice deviceId =>
    if c.state.devicesLoading then none
    else if (c.state.devices.map DeviceOption.id).contains deviceId then
      let previous := c.state.selectedDeviceId
      let c1 := { c with state.selectedDeviceId := some deviceId }
      some (if some deviceId = previous then c1
            else selectedDeviceWatcherBody (some deviceId) c1)
    else none
  | Event.listResult r =>
    if c.state.devicesLoading then some (loadDevicesFinish r c) else none
  | Event.setResult r =>
    match c.inflight with
    | Call.set _ _ fb :: rest =>
      some (pushSidetoneStateFinish fb r { c with inflight := rest })
    | _ => none
  | Event.getResult r =>
    match c.inflight with
    | Call.get _ :: rest =>
      some (refreshSidetoneStateFinish r { c with inflight := rest })
    | _ => none

/-- The state right after the refs are initialised. -/
def initConfig : Config :=
  { state := { sidetuneEnabled := false, devices := [], devicesLoading := true,
               deviceError := none, selectedDeviceId := none, sidetoneBusy := false,
               sidetoneError := none, suppressSidetoneWatcher := false,
               sidetoneRefreshPending := false },
    inflight := [] }

/-- The mounted component: the immediate invocation of the `selectedDeviceId`
watcher (with `deviceId = null`, `previous = undefined`, so the guard does not
fire) followed by `loadDevices()` from `onMounted`. -/
def mountedConfig : Config :=
  loadDevicesStart (selectedDeviceWatcherBody none initConfig)

/-- Configurations reachable from the mounted component by any event sequence. -/
inductive Reachable : Config → Prop where
  | init : Reachable mountedConfig
  | next {c c' : Config} {e : Event} : Reachable c → step c e = some c' → Reachable c'

/-- Run a sequence of events from a configuration. -/
def run (c : Config) (es : List Event) : Option Config :=
  es.foldl (fun oc e => oc.bind (fun c0 => step c0 e)) (some c)

/-- Well-formedness of an outstanding call relative to the current state: a
`set` call was issued by a genuine user toggle, so the observed value equals
its payload and the recorded fallback is the pre-toggle value. -/
def callOk (s : SyncState) : Call → Prop
  | Call.set _ en fb => s.sidetuneEnabled = en ∧ fb = !en
  | Call.get _ => True

instance (s : SyncState) (cl : Call) : Decidable (callOk s cl) :=
  match cl with
  | Call.set _ en fb => inferInstanceAs (Decidable (s.sidetuneEnabled = en ∧ fb = !en))
  | Call.get _ => inferInstanceAs (Decidable True)

/-- The inductive invariant of the Synchronizer. -/
structure Good (c : Config) : Prop where
  single : c.inflight.length ≤ 1
  busyIff : c.state.sidetoneBusy = true ↔ c.inflight ≠ []
  noSel : c.state.selectedDeviceId = none →
    c.state.sidetuneEnabled = false ∧ c.inflight = [] ∧ c.state.sidetoneError = none
  loadFacts : c.state.devicesLoading = true →
    c.inflight = [] ∧ c.state.selectedDeviceId = none ∧ c.state.devices = [] ∧
      c.state.deviceError = none
  pendBusy : c.state.sidetoneRefreshPending = true → c.state.sidetoneBusy = true
  flightErr : c.inflight ≠ [] → c.state.sidetoneError = none
  calls : ∀ cl ∈ c.inflight, callOk c.state cl

/-- The completion events: the settling of an outstanding transport call. -/
def isCompletion : Event → Prop
  | Event.setResult _ => True
  | Event.getResult _ => True
  | _ => False

/-! Concrete executions: devices, traces and their reachability. -/

def dev1 : DeviceOption := { id := "dev1", label := "HyperX Cloud III" }

def dev2 : DeviceOption := { id := "dev2", label := "HyperX Cloud III Wireless" }

/-- After mount the list call returns one device: dev1 is auto-selected and
its priming `get` is outstanding. -/
def cPrimed : Config := loadDevicesFinish (Except.ok [dev1]) mountedConfig

/-- The priming `get` confirms the already shown value `false`. -/
def cIdleFalse : Config :=
  refreshSidetoneStateFinish (Except.ok (some false)) { cPrimed with inflight := [] }

/-- The first genuine user toggle after that refresh. -/
def cToggled : Config := writeSidetune (!cIdleFalse.state.sidetuneEnabled) cIdleFalse

/-- A second user toggle, which reaches `pushSidetoneState`. -/
def cSetFlight : Config := writeSidetune (!cToggled.state.sidetuneEnabled) cToggled

/-- Two devices returned: dev1 auto-selected, its priming get outstanding. -/
def cPrimed2 : Config := loadDevicesFinish (Except.ok [dev1, dev2]) mountedConfig

/-- The user switches to dev2 while dev1's `get` is still in flight. -/
def cSwitched : Config :=
  selectedDeviceWatcherBody (some "dev2") { cPrimed2 with state.selectedDeviceId := some "dev2" }

/-- dev1's late result arrives after the switch. -/
def cStale : Config :=
  refreshSidetoneStateFinish (Except.ok (some true)) { cSwitched with inflight := [] }

/-- The list call returns no device. -/
def cEmpty : Config := loadDevicesFinish (Except.ok []) mountedConfig

/-- dev1's priming get resolves to null after a two-device load. -/
def cIdle2 : Config :=
  refreshSidetoneStateFinish (Except.ok none) { cPrimed2 with inflight := [] }

/-- A failed priming get. -/
def cGetFailed : Config :=
  refreshSidetoneStateFinish (Except.error "hid io") { cPrimed with inflight := [] }

theorem good_mounted : Good mountedConfig := by
  constructor <;> decide

theorem inflight_nil_of_not_busy {c : Config} (hg : Good c)
    (hbusy : c.state.sidetoneBusy = false) : c.inflight = [] := by
  by_contra hne
  exact absurd (hg.busyIff.mpr hne) (by simp [hbusy])

theorem pending_false_of_not_busy {c : Config} (hg : Good c)
    (hbusy : c.state.sidetoneBusy = false) : c.state.sidetoneRefreshPending = false := by
  cases hp : c.state.sidetoneRefreshPending
  · rfl
  · exact absurd (hg.pendBusy hp) (by simp [hbusy])

theorem busy_of_inflight {c : Config} (hg : Good c) {cl : Call} {rest : List Call}
    (h : c.inflight = cl :: rest) : c.state.sidetoneBusy = true :=
  hg.busyIff.mpr (by simp [h])

theorem selected_isSome_of_inflight {c : Config} (hg : Good c) {cl : Call}
    {rest : List Call} (h : c.inflight = cl :: rest) :
    ∃ d, c.state.selectedDeviceId = some d := by
  cases hsel : c.state.selectedDeviceId with
  | none => exact absurd (hg.noSel hsel).2.1 (by simp [h])
  | some d => exact ⟨d, rfl⟩

theorem not_loading_of_inflight {c : Config} (hg : Good c) {cl : Call}
    {rest : List Call} (h : c.inflight = cl :: rest) :
    c.state.devicesLoading = false := by
  cases hl : c.state.devicesLoading
  · rfl
  · exact absurd (hg.loadFacts hl).1 (by simp [h])

theorem rest_nil_of_inflight {c : Config} (hg : Good c) {cl : Call}
    {rest : List Call} (h : c.inflight = cl :: rest) : rest = [] := by
  have := hg.single
  rw [h] at this
  simpa using this

/-! Characterizations of the write to `sidetuneEnabled`. -/

theorem writeSidetune_same {c : Config} {v : Bool}
    (h : c.state.sidetuneEnabled = v) : writeSidetune v c = c := by
  simp [writeSidetune, h]

theorem writeSidetune_suppress {c : Config} {v : Bool}
    (hne : ¬c.state.sidetuneEnabled = v) (hs : c.state.suppressSidetoneWatcher = true) :
    writeSidetune v c =
      { c with state.sidetuneEnabled := v, state.suppressSidetoneWatcher := false } := by
  simp [writeSidetune, hne, sidetuneWatcher, hs]

theorem writeSidetune_push {c : Config} {v : Bool} {d : String}
    (hne : ¬c.state.sidetuneEnabled = v) (hs : c.state.suppressSidetoneWatcher = false)
    (hsel : c.state.selectedDeviceId = some d) (hload : c.state.devicesLoading = false) :
    writeSidetune v c =
      { state :=
          { c.state with
              sidetuneEnabled := v, sidetoneBusy := true, sidetoneError := none },
        inflight := c.inflight ++ [Call.set d v c.state.sidetuneEnabled] } := by
  simp [writeSidetune, hne, sidetuneWatcher, hs, hsel, pushSidetoneStateStart, hload]

/-! Characterizations of `refreshSidetoneState`. -/

theorem refresh_noDevice {c : Config} (hsel : c.state.selectedDeviceId = none) :
    refreshSidetoneState c = c := by
  simp [refreshSidetoneState, hsel]

theorem refresh_busy {c : Config} {d : String}
    (hsel : c.state.selectedDeviceId = some d) (hload : c.state.devicesLoading = false)
    (hbusy : c.state.sidetoneBusy = true) :
    refreshSidetoneState c = { c with state.sidetoneRefreshPending := true } := by
  simp [refreshSidetoneState, hsel, hload, hbusy]

theorem refresh_issue {c : Config} {d : String}
    (hsel : c.state.selectedDeviceId = some d) (hload : c.state.devicesLoading = false)
    (hbusy : c.state.sidetoneBusy = false) :
    refreshSidetoneState c =
      { state := { c.state with sidetoneBusy := true, sidetoneError := none },
        inflight := c.inflight ++ [Call.get d] } := by
  simp [refreshSidetoneState, hsel, hload, hbusy]

/-! Preservation of the invariant, one lemma per event. -/

theorem good_userToggle {c c' : Config} (hg : Good c)
    (h : step c Event.userToggle = some c') : Good c' := by
  simp only [step] at h
  by_cases hct : canToggleSidetone c = true
  · rw [if_pos hct, Option.some.injEq] at h
    subst h
    have hfacts := hct
    simp only [canToggleSidetone, Bool.and_eq_true, Bool.not_eq_true'] at hfacts
    obtain ⟨⟨hsome, hload⟩, hbusy⟩ := hfacts
    obtain ⟨d, hsel⟩ := Option.isSome_iff_exists.mp hsome
    have hinf := inflight_nil_of_not_busy hg hbusy
    have hpend := pending_false_of_not_busy hg hbusy
    have hne : ¬c.state.sidetuneEnabled = !c.state.sidetuneEnabled := by
      cases hv : c.state.sidetuneEnabled <;> simp
    by_cases hsup : c.state.suppressSidetoneWatcher = true
    · rw [writeSidetune_suppress hne hsup]
      constructor <;> simp [hinf, hbusy, hsel, hload, hpend]
    · rw [writeSidetune_push hne (by simpa using hsup) hsel hload]
      constructor <;> simp [hinf, hbusy, hsel, hload, hpend, callOk]
  · rw [if_neg hct] at h
    exact absurd h (by simp)

theorem callOk_mono {s s' : SyncState} (h : s'.sidetuneEnabled = s.sidetuneEnabled)
    {cl : Call} (hc : callOk s cl) : callOk s' cl := by
  cases cl with
  | set d en fb =>
    have hc' : s.sidetuneEnabled = en ∧ fb = !en := hc
    exact ⟨h.trans hc'.1, hc'.2⟩
  | get d => trivial

theorem good_selectDevice {c c' : Config} {b : String} (hg : Good c)
    (h : step c (Event.selectDevice b) = some c') : Good c' := by
  simp only [step] at h
  by_cases hload : c.state.devicesLoading = true
  · rw [if_pos hload] at h
    exact absurd h (by simp)
  · have hload' : c.state.devicesLoading = false := by
      cases hl : c.state.devicesLoading
      · rfl
      · exact absurd hl hload
    rw [if_neg hload] at h
    by_cases hmem : (c.state.devices.map DeviceOption.id).contains b = true
    · rw [if_pos hmem, Option.some.injEq] at h
      subst h
      by_cases hprev : some b = c.state.selectedDeviceId
      · rw [if_pos hprev]
        have hc1 : ({ c with state.selectedDeviceId := some b } : Config) = c := by
          rw [hprev]
        rw [hc1]
        exact hg
      · rw [if_neg hprev]
        simp only [selectedDeviceWatcherBody]
        rw [if_neg (by simp [hload'])]
        by_cases hbusy : c.state.sidetoneBusy = true
        · rw [refresh_busy
            (show ({ c with state.selectedDeviceId := some b } : Config).state.selectedDeviceId
              = some b from rfl) hload' hbusy]
          refine ⟨hg.single, ?_, ?_, ?_, ?_, ?_, ?_⟩
          · simpa using hg.busyIff
          · intro hn; exact absurd hn (by simp)
          · intro hl; exact absurd hl (by simp [hload'])
          · intro _; exact hbusy
          · intro hne; exact hg.flightErr (by simpa using hne)
          · intro cl hcl
            exact callOk_mono (by simp) (hg.calls cl (by simpa using hcl))
        · have hbusy' : c.state.sidetoneBusy = false := by
            cases hb : c.state.sidetoneBusy
            · rfl
            · exact absurd hb hbusy
          have hinf := inflight_nil_of_not_busy hg hbusy'
          have hpend := pending_false_of_not_busy hg hbusy'
          rw [refresh_issue
            (show ({ c with state.selectedDeviceId := some b } : Config).state.selectedDeviceId
              = some b from rfl) hload' hbusy']
          constructor <;> simp [hinf, hpend, hload', callOk]
    · rw [if_neg hmem] at h
      exact absurd h (by simp)

theorem good_refresh_fresh {c : Config} {d : String}
    (hsel : c.state.selectedDeviceId = some d) (hload : c.state.devicesLoading = false)
    (hbusy : c.state.sidetoneBusy = false) (hinf : c.inflight = [])
    (hpend : c.state.sidetoneRefreshPending = false) :
    Good (refreshSidetoneState c) := by
  rw [refresh_issue hsel hload hbusy]
  constructor <;> simp [hinf, hpend, hload, hsel, callOk]

theorem good_listResult {c c' : Config} {r : Except String (List DeviceOption)}
    (hg : Good c) (h : step c (Event.listResult r) = some c') : Good c' := by
  simp only [step] at h
  by_cases hload : c.state.devicesLoading = true
  · rw [if_pos hload, Option.some.injEq] at h
    subst h
    obtain ⟨hinf, hsel, hdevs, hderr⟩ := hg.loadFacts hload
    have hbusy : c.state.sidetoneBusy = false := by
      cases hb : c.state.sidetoneBusy
      · rfl
      · exact absurd (hg.busyIff.mp hb) (by simp [hinf])
    have hpend := pending_false_of_not_busy hg hbusy
    obtain ⟨hen, -, herr⟩ := hg.noSel hsel
    cases r with
    | error e =>
      simp only [loadDevicesFinish]
      rw [if_pos (by rw [hsel])]
      constructor <;> simp [hinf, hbusy, hpend, hen, herr, hsel, callOk]
    | ok result =>
      cases result with
      | nil =>
        simp only [loadDevicesFinish]
        rw [if_pos (by rw [hsel])]
        constructor <;> simp [hinf, hbusy, hpend, hen, herr, callOk]
      | cons dev rest =>
        simp only [loadDevicesFinish]
        rw [if_neg (by rw [hsel]; simp)]
        simp only [selectedDeviceWatcherBody]
        rw [if_neg (by simp)]
        exact good_refresh_fresh rfl rfl hbusy hinf hpend
  · rw [if_neg hload] at h
    exact absurd h (by simp)

theorem good_tail (c1 : Config) {s : String}
    (hsel : c1.state.selectedDeviceId = some s)
    (hload : c1.state.devicesLoading = false)
    (hinf : c1.inflight = []) :
    Good (if c1.state.sidetoneRefreshPending = true
          then refreshSidetoneState
            { c1 with state.sidetoneBusy := false, state.sidetoneRefreshPending := false }
          else { c1 with state.sidetoneBusy := false }) := by
  by_cases hp : c1.state.sidetoneRefreshPending = true
  · rw [if_pos hp]
    exact good_refresh_fresh hsel hload rfl hinf rfl
  · rw [if_neg hp]
    have hp' : c1.state.sidetoneRefreshPending = false := by
      cases hx : c1.state.sidetoneRefreshPending
      · rfl
      · exact absurd hx hp
    constructor <;> simp [hsel, hload, hinf, hp']

theorem good_writeTail (cm : Config) {v : Bool} {s : String}
    (hsel : cm.state.selectedDeviceId = some s)
    (hload : cm.state.devicesLoading = false)
    (hinf : cm.inflight = [])
    (hsup : cm.state.suppressSidetoneWatcher = true) :
    Good (if (writeSidetune v cm).state.sidetoneRefreshPending = true
          then refreshSidetoneState
            { writeSidetune v cm with
                state.sidetoneBusy := false, state.sidetoneRefreshPending := false }
          else { writeSidetune v cm with state.sidetoneBusy := false }) := by
  by_cases hv : cm.state.sidetuneEnabled = v
  · rw [writeSidetune_same hv]
    exact good_tail cm hsel hload hinf
  · rw [writeSidetune_suppress hv hsup]
    exact good_tail
      { cm with state.sidetuneEnabled := v, state.suppressSidetoneWatcher := false }
      hsel hload hinf

theorem good_setResult {c c' : Config} {r : Except String Unit} (hg : Good c)
    (h : step c (Event.setResult r) = some c') : Good c' := by
  simp only [step] at h
  cases hinf : c.inflight with
  | nil => rw [hinf] at h; exact absurd h (by simp)
  | cons cl rest =>
    cases cl with
    | get d => rw [hinf] at h; exact absurd h (by simp)
    | set d en fb =>
      have hrest := rest_nil_of_inflight hg hinf
      subst hrest
      rw [hinf] at h
      simp only [Option.some.injEq] at h
      subst h
      obtain ⟨s, hsel⟩ := selected_isSome_of_inflight hg hinf
      have hload := not_loading_of_inflight hg hinf
      cases r with
      | ok u =>
        simp only [pushSidetoneStateFinish]
        exact good_tail { c with inflight := [] } hsel hload rfl
      | error e =>
        simp only [pushSidetoneStateFinish]
        exact good_writeTail
          { c with state.sidetoneError := some e, state.suppressSidetoneWatcher := true, inflight := [] }
          hsel hload rfl rfl

theorem good_getResult {c c' : Config} {r : Except String (Option Bool)} (hg : Good c)
    (h : step c (Event.getResult r) = some c') : Good c' := by
  simp only [step] at h
  cases hinf : c.inflight with
  | nil => rw [hinf] at h; exact absurd h (by simp)
  | cons cl rest =>
    cases cl with
    | set d en fb => rw [hinf] at h; exact absurd h (by simp)
    | get d =>
      have hrest := rest_nil_of_inflight hg hinf
      subst hrest
      rw [hinf] at h
      simp only [Option.some.injEq] at h
      subst h
      obtain ⟨s, hsel⟩ := selected_isSome_of_inflight hg hinf
      have hload := not_loading_of_inflight hg hinf
      cases r with
      | ok ob =>
        cases ob with
        | none =>
          simp only [refreshSidetoneStateFinish]
          exact good_tail { c with inflight := [] } hsel hload rfl
        | some b =>
          simp only [refreshSidetoneStateFinish]
          exact good_writeTail
            { c with state.suppressSidetoneWatcher := true, inflight := [] }
            hsel hload rfl rfl
      | error e =>
        simp only [refreshSidetoneStateFinish]
        exact good_tail { c with state.sidetoneError := some e, inflight := [] }
          hsel hload rfl

/-- Every reachable configuration satisfies the invariant. -/
theorem reachable_good {c : Config} (h : Reachable c) : Good c := by
  induction h with
  | init => exact good_mounted
  | @next c0 c1 e hr hs ih =>
    cases e with
    | userToggle => exact good_userToggle ih hs
    | selectDevice b => exact good_selectDevice ih hs
    | listResult r => exact good_listResult ih hs
    | setResult r => exact good_setResult ih hs
    | getResult r => exact good_getResult ih hs

/-! Equation lemmas for the completion handlers on idle-pending configurations. -/

theorem refreshFinish_error_eq (c : Config) (m : String)
    (hpend : c.state.sidetoneRefreshPending = false) :
    refreshSidetoneStateFinish (Except.error m) c =
      { c with state.sidetoneError := some m, state.sidetoneBusy := false } := by
  simp only [refreshSidetoneStateFinish]
  rw [if_neg (by simp [hpend])]

theorem refreshFinish_none_eq (c : Config)
    (hpend : c.state.sidetoneRefreshPending = false) :
    refreshSidetoneStateFinish (Except.ok none) c =
      { c with state.sidetoneBusy := false } := by
  simp only [refreshSidetoneStateFinish]
  rw [if_neg (by simp [hpend])]

theorem pushFinish_ok_eq (c : Config) (fb : Bool) (u : Unit)
    (hpend : c.state.sidetoneRefreshPending = false) :
    pushSidetoneStateFinish fb (Except.ok u) c =
      { c with state.sidetoneBusy := false } := by
  simp only [pushSidetoneStateFinish]
  rw [if_neg (by simp [hpend])]

theorem pushFinish_error_eq (c : Config) (m : String) {fb : Bool}
    (hne : ¬c.state.sidetuneEnabled = fb)
    (hpend : c.state.sidetoneRefreshPending = false) :
    pushSidetoneStateFinish fb (Except.error m) c =
      { c with state.sidetuneEnabled := fb, state.sidetoneError := some m, state.suppressSidetoneWatcher := false, state.sidetoneBusy := false } := by
  simp only [pushSidetoneStateFinish]
  rw [@writeSidetune_suppress
    { c with state.sidetoneError := some m, state.suppressSidetoneWatcher := true } fb hne rfl]
  rw [if_neg (by simp [hpend])]

/-! Frame lemmas: no handler ever mutates the selection or the loading flag
except `loadDevicesFinish` and the select gesture themselves. -/

theorem refresh_frame (c : Config) :
    (refreshSidetoneState c).state.selectedDeviceId = c.state.selectedDeviceId ∧
    (refreshSidetoneState c).state.devicesLoading = c.state.devicesLoading := by
  unfold refreshSidetoneState
  cases hsel : c.state.selectedDeviceId with
  | none => simp [hsel]
  | some d =>
    by_cases hl : c.state.devicesLoading = true <;>
      by_cases hb : c.state.sidetoneBusy = true <;>
      simp [hsel, hl, hb]

theorem writeSidetune_frame (v : Bool) (c : Config) :
    (writeSidetune v c).state.selectedDeviceId = c.state.selectedDeviceId ∧
    (writeSidetune v c).state.devicesLoading = c.state.devicesLoading := by
  unfold writeSidetune sidetuneWatcher pushSidetoneStateStart
  by_cases hv : c.state.sidetuneEnabled = v <;>
    by_cases hs : c.state.suppressSidetoneWatcher = true <;>
    cases hsel : c.state.selectedDeviceId <;>
    by_cases hl : c.state.devicesLoading = true <;>
    simp [hv, hs, hsel, hl]

theorem pushFinish_frame (fb : Bool) (r : Except String Unit) (c : Config) :
    (pushSidetoneStateFinish fb r c).state.selectedDeviceId = c.state.selectedDeviceId ∧
    (pushSidetoneStateFinish fb r c).state.devicesLoading = c.state.devicesLoading := by
  unfold pushSidetoneStateFinish
  cases r with
  | ok u =>
    by_cases hp : c.state.sidetoneRefreshPending = true
    · rw [if_pos hp]
      exact ⟨(refresh_frame _).1.trans rfl, (refresh_frame _).2.trans rfl⟩
    · rw [if_neg hp]; exact ⟨rfl, rfl⟩
  | error e =>
    have hw := writeSidetune_frame fb
      { c with state.sidetoneError := some e, state.suppressSidetoneWatcher := true }
    by_cases hp : (writeSidetune fb { c with state.sidetoneError := some e, state.suppressSidetoneWatcher := true }).state.sidetoneRefreshPending = true
    · rw [if_pos hp]
      exact ⟨(refresh_frame _).1.trans (hw.1.trans rfl), (refresh_frame _).2.trans (hw.2.trans rfl)⟩
    · rw [if_neg hp]
      exact ⟨hw.1.trans rfl, hw.2.trans rfl⟩

theorem refreshFinish_frame (r : Except String (Option Bool)) (c : Config) :
    (refreshSidetoneStateFinish r c).state.selectedDeviceId = c.state.selectedDeviceId ∧
    (refreshSidetoneStateFinish r c).state.devicesLoading = c.state.devicesLoading := by
  unfold refreshSidetoneStateFinish
  cases r with
  | ok ob =>
    cases ob with
    | none =>
      by_cases hp : c.state.sidetoneRefreshPending = true
      · rw [if_pos hp]
        exact ⟨(refresh_frame _).1.trans rfl, (refresh_frame _).2.trans rfl⟩
      · rw [if_neg hp]; exact ⟨rfl, rfl⟩
    | some b =>
      have hw := writeSidetune_frame b { c with state.suppressSidetoneWatcher := true }
      by_cases hp : (writeSidetune b { c with state.suppressSidetoneWatcher := true }).state.sidetoneRefreshPending = true
      · rw [if_pos hp]
        exact ⟨(refresh_frame _).1.trans (hw.1.trans rfl), (refresh_frame _).2.trans (hw.2.trans rfl)⟩
      · rw [if_neg hp]
        exact ⟨hw.1.trans rfl, hw.2.trans rfl⟩
  | error e =>
    by_cases hp : c.state.sidetoneRefreshPending = true
    · rw [if_pos hp]
      exact ⟨(refresh_frame _).1.trans rfl, (refresh_frame _).2.trans rfl⟩
    · rw [if_neg hp]; exact ⟨rfl, rfl⟩

theorem trailing_refresh_inflight (c1 : Config) {s : String}
    (hsel : c1.state.selectedDeviceId = some s) (hload : c1.state.devicesLoading = false)
    (hinf : c1.inflight = []) (hpend : c1.state.sidetoneRefreshPending = true) :
    (if c1.state.sidetoneRefreshPending = true
     then refreshSidetoneState
       { c1 with state.sidetoneBusy := false, state.sidetoneRefreshPending := false }
     else { c1 with state.sidetoneBusy := false }).inflight = [Call.get s] ∧
    (if c1.state.sidetoneRefreshPending = true
     then refreshSidetoneState
       { c1 with state.sidetoneBusy := false, state.sidetoneRefreshPending := false }
     else { c1 with state.sidetoneBusy := false }).state.sidetoneRefreshPending = false := by
  rw [if_pos hpend,
    @refresh_issue { c1 with state.sidetoneBusy := false, state.sidetoneRefreshPending := false } s hsel hload rfl]
  constructor <;> simp [hinf]

theorem trailing_refresh_inflightW (cm : Config) {v : Bool} {s : String}
    (hsel : cm.state.selectedDeviceId = some s) (hload : cm.state.devicesLoading = false)
    (hinf : cm.inflight = []) (hsup : cm.state.suppressSidetoneWatcher = true)
    (hpend : cm.state.sidetoneRefreshPending = true) :
    (if (writeSidetune v cm).state.sidetoneRefreshPending = true
     then refreshSidetoneState
       { writeSidetune v cm with state.sidetoneBusy := false, state.sidetoneRefreshPending := false }
     else { writeSidetune v cm with state.sidetoneBusy := false }).inflight = [Call.get s] ∧
    (if (writeSidetune v cm).state.sidetoneRefreshPending = true
     then refreshSidetoneState
       { writeSidetune v cm with state.sidetoneBusy := false, state.sidetoneRefreshPending := false }
     else { writeSidetune v cm with state.sidetoneBusy := false }).state.sidetoneRefreshPending = false := by
  by_cases hv : cm.state.sidetuneEnabled = v
  · rw [writeSidetune_same hv]
    exact trailing_refresh_inflight cm hsel hload hinf hpend
  · rw [writeSidetune_suppress hv hsup]
    exact trailing_refresh_inflight
      { cm with state.sidetuneEnabled := v, state.suppressSidetoneWatcher := false }
      hsel hload hinf hpend

theorem busy_facts {c : Config} (hg : Good c) (hbusy : c.state.sidetoneBusy = true) :
    ∃ s, c.state.selectedDeviceId = some s ∧ c.state.devicesLoading = false := by
  have hne := hg.busyIff.mp hbusy
  cases hinf : c.inflight with
  | nil => exact absurd hinf hne
  | cons cl rest =>
    obtain ⟨s, hsel⟩ := selected_isSome_of_inflight hg hinf
    exact ⟨s, hsel, not_loading_of_inflight hg hinf⟩

/-- C1: in every reachable configuration at most one hardware call is
outstanding; a refresh requested while busy issues no transport call and only
records the pending flag; and when the in-flight call completes with the
pending flag set, exactly one trailing `get` for the currently selected device
is issued. -/
theorem C1_single_flight :
    (∀ c : Config, Reachable c → c.inflight.length ≤ 1) ∧
    (∀ c : Config, Reachable c → c.state.sidetoneBusy = true →
      refreshSidetoneState c = { c with state.sidetoneRefreshPending := true }) ∧
    (∀ (c c' : Config) (e : Event), Reachable c → isCompletion e →
      c.state.sidetoneRefreshPending = true → step c e = some c' →
      ∃ d, c.state.selectedDeviceId = some d ∧ c'.inflight = [Call.get d] ∧
        c'.state.sidetoneRefreshPending = false) := by
  refine ⟨fun c hr => (reachable_good hr).single, fun c hr hbusy => ?_, ?_⟩
  · obtain ⟨s, hsel, hload⟩ := busy_facts (reachable_good hr) hbusy
    exact refresh_busy hsel hload hbusy
  · intro c c' e hr hcomp hpend hstep
    have hg := reachable_good hr
    cases e with
    | userToggle => exact hcomp.elim
    | selectDevice b => exact hcomp.elim
    | listResult r => exact hcomp.elim
    | setResult r =>
      simp only [step] at hstep
      cases hinf : c.inflight with
      | nil => rw [hinf] at hstep; exact absurd hstep (by simp)
      | cons cl rest =>
        cases cl with
        | get d => rw [hinf] at hstep; exact absurd hstep (by simp)
        | set d en fb =>
          have hrest := rest_nil_of_inflight hg hinf
          subst hrest
          rw [hinf] at hstep
          simp only [Option.some.injEq] at hstep
          subst hstep
          obtain ⟨s, hsel⟩ := selected_isSome_of_inflight hg hinf
          have hload := not_loading_of_inflight hg hinf
          refine ⟨s, hsel, ?_⟩
          cases r with
          | ok u =>
            simp only [pushSidetoneStateFinish]
            exact trailing_refresh_inflight { c with inflight := [] } hsel hload rfl hpend
          | error e0 =>
            simp only [pushSidetoneStateFinish]
            exact trailing_refresh_inflightW
              { c with state.sidetoneError := some e0, state.suppressSidetoneWatcher := true, inflight := [] }
              hsel hload rfl rfl hpend
    | getResult r =>
      simp only [step] at hstep
      cases hinf : c.inflight with
      | nil => rw [hinf] at hstep; exact absurd hstep (by simp)
      | cons cl rest =>
        cases cl with
        | set d en fb => rw [hinf] at hstep; exact absurd hstep (by simp)
        | get d =>
          have hrest := rest_nil_of_inflight hg hinf
          subst hrest
          rw [hinf] at hstep
          simp only [Option.some.injEq] at hstep
          subst hstep
          obtain ⟨s, hsel⟩ := selected_isSome_of_inflight hg hinf
          have hload := not_loading_of_inflight hg hinf
          refine ⟨s, hsel, ?_⟩
          cases r with
          | ok ob =>
            cases ob with
            | none =>
              simp only [refreshSidetoneStateFinish]
              exact trailing_refresh_inflight { c with inflight := [] } hsel hload rfl hpend
            | some b =>
              simp only [refreshSidetoneStateFinish]
              exact trailing_refresh_inflightW
                { c with state.suppressSidetoneWatcher := true, inflight := [] }
                hsel hload rfl rfl hpend
          | error e0 =>
            simp only [refreshSidetoneStateFinish]
            exact trailing_refresh_inflight
              { c with state.sidetoneError := some e0, inflight := [] } hsel hload rfl hpend

/-- C2: if the outstanding optimistic `set` fails, the observed toggle is
rolled back to the recorded pre-toggle value (the negation of the optimistic
one), the failure message is stored in `sidetoneError`, and the rollback
leaves no outstanding call: the suppressed watcher issues no new `set`. -/
theorem C2_rollback {c : Config} {d m : String} {en fb : Bool}
    (hr : Reachable c) (hinf : c.inflight = [Call.set d en fb])
    (hpend : c.state.sidetoneRefreshPending = false) :
    c.state.sidetuneEnabled = en ∧ fb = !en ∧
    step c (Event.setResult (Except.error m)) = some
      { c with state.sidetuneEnabled := fb, state.sidetoneError := some m, state.suppressSidetoneWatcher := false, state.sidetoneBusy := false, inflight := [] } := by
  have hg := reachable_good hr
  have hcall : c.state.sidetuneEnabled = en ∧ fb = !en :=
    hg.calls (Call.set d en fb) (by simp [hinf])
  refine ⟨hcall.1, hcall.2, ?_⟩
  simp only [step, hinf]
  have hne : ¬({ c with inflight := ([] : List Call) } : Config).state.sidetuneEnabled = fb := by
    show ¬c.state.sidetuneEnabled = fb
    rw [hcall.1, hcall.2]
    cases en <;> simp
  rw [pushFinish_error_eq { c with inflight := [] } m hne hpend]

/-- C5: a failed `get` leaves the observed toggle and the selection untouched:
the resulting configuration differs only in the recorded error message, the
cleared busy flag and the emptied call list, and the switch is enabled again
afterwards. -/
theorem C5_get_failure_frame {c : Config} {d m : String}
    (hr : Reachable c) (hinf : c.inflight = [Call.get d])
    (hpend : c.state.sidetoneRefreshPending = false) :
    step c (Event.getResult (Except.error m)) = some
      { c with state.sidetoneError := some m, state.sidetoneBusy := false, inflight := [] } ∧
    canToggleSidetone { c with state.sidetoneError := some m, state.sidetoneBusy := false, inflight := [] } = true := by
  have hg := reachable_good hr
  obtain ⟨s, hsel⟩ := selected_isSome_of_inflight hg hinf
  have hload := not_loading_of_inflight hg hinf
  constructor
  · simp only [step, hinf]
    rw [refreshFinish_error_eq { c with inflight := [] } m hpend]
  · simp [canToggleSidetone, hsel, hload]

/-- C9: a `get` resolving to null changes nothing but the busy flag and the
call list — the observed toggle keeps its last value, no error is recorded
(the error slot is clear while a call is outstanding), and no `set` is
issued. -/
theorem C9_null_get {c : Config} {d : String}
    (hr : Reachable c) (hinf : c.inflight = [Call.get d])
    (hpend : c.state.sidetoneRefreshPending = false) :
    step c (Event.getResult (Except.ok none)) = some
      { c with state.sidetoneBusy := false, inflight := [] } ∧
    c.state.sidetoneError = none := by
  have hg := reachable_good hr
  constructor
  · simp only [step, hinf]
    rw [refreshFinish_none_eq { c with inflight := [] } hpend]
  · exact hg.flightErr (by simp [hinf])

/-- C6: with no selected device the observed toggle is false and inert: the
switch is disabled, the sidetone error is clear and no call is outstanding. -/
theorem C6_no_device_inert {c : Config} (hr : Reachable c)
    (hsel : c.state.selectedDeviceId = none) :
    c.state.sidetuneEnabled = false ∧ canToggleSidetone c = false ∧
    c.state.sidetoneError = none ∧ c.inflight = [] := by
  have hg := reachable_good hr
  obtain ⟨h1, h2, h3⟩ := hg.noSel hsel
  exact ⟨h1, by simp [canToggleSidetone, hsel], h3, h2⟩

/-- C7: while the device list is loading no sidetone call is outstanding (no
handler issues one); and switching the selection to a listed device while
idle clears the sidetone error and issues exactly one fresh `get` for the new
device. -/
theorem C7_switch_primes {c : Config} {b : String} (hr : Reachable c) :
    (c.state.devicesLoading = true → c.inflight = []) ∧
    (c.state.devicesLoading = false → c.state.sidetoneBusy = false →
      (c.state.devices.map DeviceOption.id).contains b = true →
      ¬some b = c.state.selectedDeviceId →
      step c (Event.selectDevice b) = some
        { state := { c.state with selectedDeviceId := some b, sidetoneBusy := true, sidetoneError := none }, inflight := [Call.get b] }) := by
  have hg := reachable_good hr
  refine ⟨fun hl => (hg.loadFacts hl).1, fun hload hbusy hmem hprev => ?_⟩
  have hinf := inflight_nil_of_not_busy hg hbusy
  simp only [step]
  rw [if_neg (by simp [hload]), if_pos hmem, if_neg hprev]
  simp only [selectedDeviceWatcherBody]
  rw [if_neg (by simp [hload])]
  rw [@refresh_issue { c with state.selectedDeviceId := some b } b rfl hload hbusy]
  simp [hinf]

/-- C8: `loadDevices` stores the returned list and auto-selects its head,
priming the toggle with a fresh `get`; an empty list yields a null selection
with no error recorded; a failed list call clears the selection and stores
the message in `deviceError`. -/
theorem C8_load_devices {c : Config} (hr : Reachable c)
    (hload : c.state.devicesLoading = true) :
    (∀ (dv : DeviceOption) (rest : List DeviceOption),
      step c (Event.listResult (Except.ok (dv :: rest))) = some
        { state := { c.state with devices := dv :: rest, selectedDeviceId := some dv.id, devicesLoading := false, sidetoneBusy := true, sidetoneError := none }, inflight := [Call.get dv.id] }) ∧
    (step c (Event.listResult (Except.ok [])) = some
        { c with state.devices := [], state.selectedDeviceId := none, state.devicesLoading := false } ∧
      c.state.deviceError = none) ∧
    (∀ m : String, step c (Event.listResult (Except.error m)) = some
        { c with state.deviceError := some m, state.selectedDeviceId := none, state.devicesLoading := false }) := by
  have hg := reachable_good hr
  obtain ⟨hinf, hsel, hdevs, hderr⟩ := hg.loadFacts hload
  have hbusy : c.state.sidetoneBusy = false := by
    cases hb : c.state.sidetoneBusy
    · rfl
    · exact absurd (hg.busyIff.mp hb) (by simp [hinf])
  refine ⟨fun dv rest => ?_, ⟨?_, hderr⟩, fun m => ?_⟩
  · simp only [step]
    rw [if_pos hload]
    simp only [loadDevicesFinish]
    rw [if_neg (show ¬(some dv.id = c.state.selectedDeviceId) by rw [hsel]; simp)]
    simp only [selectedDeviceWatcherBody]
    rw [if_neg (by simp)]
    rw [@refresh_issue { c with state.devices := dv :: rest, state.selectedDeviceId := some dv.id, state.devicesLoading := false } dv.id rfl rfl hbusy]
    simp [hinf]
  · simp only [step]
    rw [if_pos hload]
    simp only [loadDevicesFinish]
    rw [if_pos (show (none : Option String) = c.state.selectedDeviceId by rw [hsel])]
  · simp only [step]
    rw [if_pos hload]
    simp only [loadDevicesFinish]
    rw [if_pos (show (none : Option String) = c.state.selectedDeviceId by rw [hsel])]

/-- C10: after any completion of a sidetone call the busy flag mirrors the
outstanding-call list, and once no call is left the flag is false and the
switch is enabled again: no failure leaves the toggle locked. -/
theorem C10_busy_reset {c c' : Config} {e : Event}
    (hr : Reachable c) (hcomp : isCompletion e) (hstep : step c e = some c') :
    (c'.state.sidetoneBusy = true ↔ c'.inflight ≠ []) ∧
    (c'.inflight = [] → c'.state.sidetoneBusy = false ∧ canToggleSidetone c' = true) := by
  have hg := reachable_good hr
  have hg' := reachable_good (Reachable.next hr hstep)
  refine ⟨hg'.busyIff, fun hnil => ?_⟩
  have hb : c'.state.sidetoneBusy = false := by
    cases hbv : c'.state.sidetoneBusy
    · rfl
    · exact absurd (hg'.busyIff.mp hbv) (by simp [hnil])
  refine ⟨hb, ?_⟩
  cases e with
  | userToggle => exact hcomp.elim
  | selectDevice b => exact hcomp.elim
  | listResult r => exact hcomp.elim
  | setResult r =>
    simp only [step] at hstep
    cases hinf : c.inflight with
    | nil => rw [hinf] at hstep; exact absurd hstep (by simp)
    | cons cl rest =>
      cases cl with
      | get d => rw [hinf] at hstep; exact absurd hstep (by simp)
      | set d en fb =>
        rw [hinf] at hstep
        simp only [Option.some.injEq] at hstep
        obtain ⟨s, hsel⟩ := selected_isSome_of_inflight hg hinf
        have hload := not_loading_of_inflight hg hinf
        have hfr := pushFinish_frame fb r { c with inflight := rest }
        rw [hstep] at hfr
        simp [canToggleSidetone, hfr.1, hfr.2, hsel, hload, hb]
  | getResult r =>
    simp only [step] at hstep
    cases hinf : c.inflight with
    | nil => rw [hinf] at hstep; exact absurd hstep (by simp)
    | cons cl rest =>
      cases cl with
      | set d en fb => rw [hinf] at hstep; exact absurd hstep (by simp)
      | get d =>
        rw [hinf] at hstep
        simp only [Option.some.injEq] at hstep
        obtain ⟨s, hsel⟩ := selected_isSome_of_inflight hg hinf
        have hload := not_loading_of_inflight hg hinf
        have hfr := refreshFinish_frame r { c with inflight := rest }
        rw [hstep] at hfr
        simp [canToggleSidetone, hfr.1, hfr.2, hsel, hload, hb]

theorem reach_cPrimed : Reachable cPrimed :=
  Reachable.next Reachable.init
    (show step mountedConfig (Event.listResult (Except.ok [dev1])) = some cPrimed by decide)

theorem reach_cIdleFalse : Reachable cIdleFalse :=
  Reachable.next reach_cPrimed
    (show step cPrimed (Event.getResult (Except.ok (some false))) = some cIdleFalse by decide)

theorem reach_cToggled : Reachable cToggled :=
  Reachable.next reach_cIdleFalse
    (show step cIdleFalse Event.userToggle = some cToggled by decide)

theorem reach_cSetFlight : Reachable cSetFlight :=
  Reachable.next reach_cToggled
    (show step cToggled Event.userToggle = some cSetFlight by decide)

theorem reach_cPrimed2 : Reachable cPrimed2 :=
  Reachable.next Reachable.init
    (show step mountedConfig (Event.listResult (Except.ok [dev1, dev2])) = some cPrimed2 by decide)

theorem reach_cSwitched : Reachable cSwitched :=
  Reachable.next reach_cPrimed2
    (show step cPrimed2 (Event.selectDevice "dev2") = some cSwitched by decide)

theorem reach_cEmpty : Reachable cEmpty :=
  Reachable.next Reachable.init
    (show step mountedConfig (Event.listResult (Except.ok [])) = some cEmpty by decide)

theorem reach_cIdle2 : Reachable cIdle2 :=
  Reachable.next reach_cPrimed2
    (show step cPrimed2 (Event.getResult (Except.ok none)) = some cIdle2 by decide)

/-- C3: the one-shot suppression flag is NOT consumed exactly once per
programmatic mutation: when the refresh result equals the already observed
value, the write changes nothing, Vue fires no watcher, and the flag is left
set — the next genuine user toggle is then swallowed: the observed value
flips but no `set` call is issued and the flag, not the toggle, is what gets
consumed. -/
theorem C3_suppression_flag_leaks :
    run mountedConfig
        [Event.listResult (Except.ok [dev1]), Event.getResult (Except.ok (some false))] =
      some cIdleFalse ∧
    cIdleFalse.state.suppressSidetoneWatcher = true ∧
    step cIdleFalse Event.userToggle = some cToggled ∧
    cToggled.state.sidetuneEnabled = true ∧ cToggled.inflight = [] ∧
    cToggled.state.suppressSidetoneWatcher = false := by decide

/-- C4: a `get` result arriving after the selection changed still mutates the
observed state: with dev1's `get` in flight, switching to dev2 and then
receiving dev1's late `true` flips the toggle shown for dev2 from false to
true before any dev2 read has settled — the handler never checks that the
result still applies to the current selection. -/
theorem C4_stale_result_mutates :
    run mountedConfig
        [Event.listResult (Except.ok [dev1, dev2]), Event.selectDevice "dev2"] =
      some cSwitched ∧
    cSwitched.state.selectedDeviceId = some "dev2" ∧
    cSwitched.inflight = [Call.get "dev1"] ∧
    cSwitched.state.sidetuneEnabled = false ∧
    step cSwitched (Event.getResult (Except.ok (some true))) = some cStale ∧
    cStale.state.selectedDeviceId = some "dev2" ∧
    cStale.state.sidetuneEnabled = true ∧
    cStale.inflight = [Call.get "dev2"] := by decide

theorem C1_single_flight_witness :
    cStale.inflight = [Call.get "dev2"] ∧
    cStale.state.sidetoneRefreshPending = false ∧
    cSwitched.inflight.length ≤ 1 ∧
    refreshSidetoneState cSwitched = { cSwitched with state.sidetoneRefreshPending := true } := by
  obtain ⟨d, hd, h1, h2⟩ :=
    C1_single_flight.2.2 cSwitched cStale (Event.getResult (Except.ok (some true)))
      reach_cSwitched True.intro (by decide)
      (by decide : step cSwitched (Event.getResult (Except.ok (some true))) = some cStale)
  have hd2 : d = "dev2" := by
    have hsel : cSwitched.state.selectedDeviceId = some "dev2" := by decide
    have := hd.symm.trans hsel
    injection this
  subst hd2
  exact ⟨h1, h2, C1_single_flight.1 cSwitched reach_cSwitched,
    C1_single_flight.2.1 cSwitched reach_cSwitched (by decide)⟩

theorem C2_rollback_witness :
    cSetFlight.state.sidetuneEnabled = false ∧ (true : Bool) = !false ∧
    step cSetFlight (Event.setResult (Except.error "boom")) = some
      { cSetFlight with state.sidetuneEnabled := true, state.sidetoneError := some "boom", state.suppressSidetoneWatcher := false, state.sidetoneBusy := false, inflight := [] } :=
  C2_rollback reach_cSetFlight
    (by decide : cSetFlight.inflight = [Call.set "dev1" false true]) (by decide)

theorem C5_get_failure_frame_witness :
    step cPrimed (Event.getResult (Except.error "io error")) = some
      { cPrimed with state.sidetoneError := some "io error", state.sidetoneBusy := false, inflight := [] } ∧
    canToggleSidetone { cPrimed with state.sidetoneError := some "io error", state.sidetoneBusy := false, inflight := [] } = true :=
  C5_get_failure_frame reach_cPrimed
    (by decide : cPrimed.inflight = [Call.get "dev1"]) (by decide)

theorem C6_no_device_inert_witness :
    cEmpty.state.sidetuneEnabled = false ∧ canToggleSidetone cEmpty = false ∧
    cEmpty.state.sidetoneError = none ∧ cEmpty.inflight = [] :=
  C6_no_device_inert reach_cEmpty (by decide)

theorem C7_switch_primes_witness :
    mountedConfig.inflight = [] ∧
    step cIdle2 (Event.selectDevice "dev2") = some
      { state := { cIdle2.state with selectedDeviceId := some "dev2", sidetoneBusy := true, sidetoneError := none }, inflight := [Call.get "dev2"] } :=
  ⟨(@C7_switch_primes mountedConfig "dev2" Reachable.init).1 (by decide),
   (@C7_switch_primes cIdle2 "dev2" reach_cIdle2).2 (by decide) (by decide) (by decide)
     (by decide)⟩

theorem C8_load_devices_witness :
    step mountedConfig (Event.listResult (Except.ok [dev1])) = some
      { state := { mountedConfig.state with devices := [dev1], selectedDeviceId := some dev1.id, devicesLoading := false, sidetoneBusy := true, sidetoneError := none }, inflight := [Call.get dev1.id] } ∧
    (step mountedConfig (Event.listResult (Except.ok [])) = some
      { mountedConfig with state.devices := [], state.selectedDeviceId := none, state.devicesLoading := false } ∧
      mountedConfig.state.deviceError = none) ∧
    step mountedConfig (Event.listResult (Except.error "usb down")) = some
      { mountedConfig with state.deviceError := some "usb down", state.selectedDeviceId := none, state.devicesLoading := false } :=
  ⟨(C8_load_devices Reachable.init (by decide)).1 dev1 [],
   (C8_load_devices Reachable.init (by decide)).2.1,
   (C8_load_devices Reachable.init (by decide)).2.2 "usb down"⟩

theorem C9_null_get_witness :
    step cPrimed (Event.getResult (Except.ok none)) = some
      { cPrimed with state.sidetoneBusy := false, inflight := [] } ∧
    cPrimed.state.sidetoneError = none :=
  C9_null_get reach_cPrimed
    (by decide : cPrimed.inflight = [Call.get "dev1"]) (by decide)

theorem C10_busy_reset_witness :
    (cGetFailed.state.sidetoneBusy = true ↔ cGetFailed.inflight ≠ []) ∧
    (cGetFailed.inflight = [] → cGetFailed.state.sidetoneBusy = false ∧
      canToggleSidetone cGetFailed = true) :=
  @C10_busy_reset cPrimed cGetFailed (Event.getResult (Except.error "hid io"))
    reach_cPrimed True.intro
    (by decide : step cPrimed (Event.getResult (Except.error "hid io")) = some cGetFailed)
